import Mathlib

/-!
Verification development for the highway asset intelligence ingestion
pipeline.  The definitions below are a shallow embedding of the Python
sources under `src/pipelines`: tabular values become lists of cells,
pandas scalar NaN becomes an explicit null cell, machine floats become
exact rationals, and I/O outcomes (network fetches, file reads, clock
reads) become explicit environment parameters.  Each definition mirrors
one Python function and keeps its name where Lean allows it.
-/

namespace BHAI

/-! ## Tabular values

A cell is either a numeric value, a piece of text together with the
result pandas `to_numeric` coercion would give for it, or a missing
value (NaN/None).  A data frame is a list of column names plus
row-major cells. -/

/-! ## String helpers

Executable character-list versions of the Python string methods the
sources use (`lower`, `upper`, `strip`, `replace`, `startswith`), so
that concrete runs evaluate inside proofs. -/

def strLower (s : String) : String := String.mk (s.data.map Char.toLower)

def strUpper (s : String) : String := String.mk (s.data.map Char.toUpper)

def isSpaceChar (c : Char) : Bool := c = ' ' ∨ c = '\t' ∨ c = '\n' ∨ c = '\r'

def strTrim (s : String) : String :=
  String.mk (((s.data.dropWhile isSpaceChar).reverse.dropWhile isSpaceChar).reverse)

/-- Non-overlapping left-to-right replacement, as Python `str.replace`
performs it.  The fuel is the input length; every step consumes at
least one character. -/
def strReplaceCore (pat rep : List Char) : ℕ → List Char → List Char
  | 0, l => l
  | _ + 1, [] => []
  | fuel + 1, c :: rest =>
    if pat.isPrefixOf (c :: rest) then
      rep ++ strReplaceCore pat rep fuel ((c :: rest).drop pat.length)
    else c :: strReplaceCore pat rep fuel rest

def strReplace (s pat rep : String) : String :=
  if pat.data = [] then s
  else String.mk (strReplaceCore pat.data rep.data s.data.length s.data)

def strStartsWith (s pre : String) : Bool := pre.data.isPrefixOf s.data

inductive Cell where
  | num (q : ℚ)
  | text (s : String) (parsedNum : Option ℚ)
  | null
deriving DecidableEq, Repr

/-- Embeds `pd.to_numeric(errors="coerce")` on one cell: numeric cells keep
their value, text cells yield their parse result, NaN stays NaN. -/
def Cell.toNumeric : Cell → Option ℚ
  | Cell.num q => some q
  | Cell.text _ p => p
  | Cell.null => none

/-- True when the cell is missing, as `pd.isna` reports it. -/
def Cell.isNA : Cell → Bool
  | Cell.null => true
  | _ => false

structure DataFrame where
  columns : List String
  rows : List (List Cell)
deriving DecidableEq, Repr

/-- Embeds the pandas `DataFrame.empty` property: true when either axis
has length zero. -/
def DataFrame.isEmpty (df : DataFrame) : Bool :=
  df.rows.isEmpty || df.columns.isEmpty

/-- Column extraction by position, padding short rows with NaN. -/
def DataFrame.getCol (df : DataFrame) (i : ℕ) : List Cell :=
  df.rows.map (fun r => r.getD i Cell.null)

/-- Replaces column `i` with the given cells, row by row. -/
def DataFrame.setCol (df : DataFrame) (i : ℕ) (vals : List Cell) : DataFrame :=
  { df with rows := df.rows.zipWith (fun r v => r.set i v) vals }

/-! ## Python rounding

Python `round(x, 3)` rounds half to even.  The sources only round exact
decimal fractions, so the embedding uses the exact rational rule. -/

def roundHalfEven (q : ℚ) : ℤ :=
  let f := ⌊q⌋
  let r := q - f
  if r < 1/2 then f
  else if 1/2 < r then f + 1
  else if f % 2 = 0 then f else f + 1

def pyRound3 (q : ℚ) : ℚ := (roundHalfEven (q * 1000) : ℚ) / 1000

/-! ## Embedding of src/pipelines/quality.py -/

/-- Scoring context, the fields of the `item` mapping that
`quality.evaluate` reads.  The `retrievedAgeDays` field abstracts the
wall-clock computation in `recency_score`: it is the age in days of the
parsed `retrieved_at` timestamp, or `none` when the timestamp is missing
or unparseable. -/
structure Item where
  status : String
  reliability_grade : String
  official_flag : Bool
  retrievedAgeDays : Option ℚ
  update_frequency : Option String
deriving DecidableEq, Repr

/-- Embeds the `STATUS_CONFIDENCE` table together with the `_status_factor`
lookup (lower-cased key, default 0.5). -/
def statusFactor (status : String) : ℚ :=
  let s := strLower status
  if s = "ok" then 1
  else if s = "automated" then 1
  else if s = "manual_ingest" then 49/50
  else if s = "stub_parsed" then 39/50
  else if s = "metadata_only" then 31/50
  else if s = "proxy_stub" then 19/50
  else if s = "stubs_disabled" then 3/10
  else if s = "disabled" then 11/50
  else if s = "stubbed_manual_gap" then 17/50
  else if s = "candidate_ready" then 11/25
  else 1/2

/-- Embeds `_status_reason`. -/
def statusReason (status : String) : Option String :=
  if status = "stubs_disabled" ∨ status = "disabled" then
    some "Ingestion is disabled under manual approval gate."
  else if status = "stubbed_manual_gap" ∨ status = "candidate_ready" then
    some "Connector is a controlled placeholder until a validated official endpoint/docs are available."
  else if status = "proxy_stub" then
    some "This signal is proxy-derived and not an official measurement."
  else if status = "metadata_only" then
    some "Metadata-only path; does not contain source metric values."
  else none

/-- Embeds `completeness_score`. -/
def completeness_score (df : DataFrame) : ℚ :=
  if df.isEmpty then 0
  else
    let total : ℚ := (df.rows.length : ℚ) * (max df.columns.length 1 : ℕ)
    let missing : ℚ := ((df.rows.map (fun r => (r.filter (fun c => c.isNA)).length)).sum : ℕ)
    pyRound3 (max 0 (1 - missing / total))

/-- Embeds `FREQ_TO_DAYS.get((update_frequency or "unknown").lower(), 365)`. -/
def freqDays (freq : Option String) : ℚ :=
  let s := strLower (match freq with | some f => if f = "" then "unknown" else f | none => "unknown")
  if s = "daily" then 1
  else if s = "monthly" then 31
  else if s = "quarterly" then 92
  else if s = "annual" then 365
  else 365

/-- Embeds `recency_score`, with the parsed timestamp age supplied by the
environment (see `Item.retrievedAgeDays`). -/
def recency_score (ageDays : Option ℚ) (freq : Option String) : ℚ :=
  match ageDays with
  | none => 1/4
  | some age =>
    let fd := freqDays freq
    if age ≤ fd then 1
    else if age ≤ fd * 2 then 7/10
    else if age ≤ fd * 4 then 2/5
    else 1/5

/-- Embeds `provenance_score`. -/
def provenance_score (item : Item) : ℚ :=
  let rel := strUpper item.reliability_grade
  if rel = "A" ∧ item.official_flag then 1
  else if rel = "B" ∧ item.official_flag then 17/20
  else if rel = "C" ∧ ¬ item.official_flag then 3/5
  else if rel = "C" then 7/10
  else 1/2

/-- True when the coerced cell is a negative number, as in
`(pd.to_numeric(df[col], errors="coerce") < 0).any()`. -/
def cellNegative (c : Cell) : Bool :=
  match c.toNumeric with
  | some q => decide (q < 0)
  | none => false

/-- Embeds `consistency_score`. -/
def consistency_score (df : DataFrame) (numeric_nonnegative : List String) : ℚ :=
  if df.isEmpty then 3/10
  else
    let score : ℚ := numeric_nonnegative.foldl
      (fun s col =>
        match df.columns.findIdx? (fun c => c = col) with
        | none => s - 1/20
        | some i => if (df.getCol i).any cellNegative then s - 1/4 else s)
      1
    let score := if score < 0 then 0 else score
    pyRound3 (min score 1)

structure Scores where
  completeness : ℚ
  recency : ℚ
  provenance : ℚ
  consistency : ℚ
deriving DecidableEq, Repr

def overallScore (s : Scores) : ℚ :=
  35/100 * s.completeness + 25/100 * s.recency + 1/5 * s.provenance + 1/5 * s.consistency

/-- Embeds `confidence_badge`: the weighted overall score, the threshold
reasons, and the tiered badge with the fixed advisory string appended on
the Low branch. -/
def confidence_badge (s : Scores) : String × List String :=
  let overall := overallScore s
  let reasons :=
    (if s.provenance < 45/100 then ["Low provenance confidence (source reliability category)"] else [])
    ++ (if s.completeness < 3/5 then ["Missingness is high; check source completeness"] else [])
    ++ (if s.recency < 3/5 then ["Recency is stale against claimed update frequency"] else [])
    ++ (if s.consistency < 7/10 then ["Schema/range checks showed potential consistency issues"] else [])
  if overall ≥ 17/20 then ("High", reasons)
  else if overall ≥ 13/20 then ("Med", reasons)
  else ("Low", reasons ++ ["Use for trend and risk ranking, not precise governance decisions"])

structure EvalResult where
  completeness_score : ℚ
  recency_score : ℚ
  provenance_score : ℚ
  consistency_score : ℚ
  overall_confidence_badge : String
  overall_confidence_reason : List String
deriving DecidableEq, Repr

/-- Embeds `evaluate`.  Note that, as in the source, `consistency_score`
is called with an empty declared-columns list. -/
def evaluate (df : DataFrame) (item : Item) : EvalResult :=
  let c := completeness_score df
  let r := recency_score item.retrievedAgeDays item.update_frequency
  let p := provenance_score item
  let cs := consistency_score df []
  let status_factor := statusFactor item.status
  let status := strLower item.status
  let c := min c (if status_factor ≤ 1 then status_factor else c)
  let r := min r (max (1/5) status_factor)
  let p := p * max (1/4) status_factor
  let cs := min cs (max (1/5) status_factor)
  let br := confidence_badge ⟨c, r, p, cs⟩
  let reasons := match statusReason status with
    | some m => br.2 ++ [m]
    | none => br.2
  ⟨c, r, p, cs, br.1, reasons⟩

/-- Rank of a badge in the order Low < Med < High. -/
def badgeRank (b : String) : ℕ :=
  if b = "High" then 2 else if b = "Med" then 1 else 0

/-! ## Embedding of the catalog upsert

Both `common.append_catalog_entry` and the inline upserts in
`ingest.run_ingestion` and `correlation.run_correlation` use the same
replace-by-key shape: drop every entry with the manifest source id,
then append the manifest. -/

structure CatalogEntry where
  source_id : String
  payload : String
deriving DecidableEq, Repr

def upsertCatalog (entries : List CatalogEntry) (m : CatalogEntry) : List CatalogEntry :=
  entries.filter (fun e => e.source_id ≠ m.source_id) ++ [m]

/-- Number of catalog entries carrying the given source id. -/
def countId (sid : String) (entries : List CatalogEntry) : ℕ :=
  (entries.filter (fun e => e.source_id = sid)).length

/-! ## Embedding of the normalizer steps in
src/pipelines/connectors/datagovin_ogd.py -/

/-- Embeds the column renaming of `_standardize_df`: strip, newline to
space, collapse one double space, lower case, space to underscore, drop
parentheses, percent to pct. -/
def standardizeName (s : String) : String :=
  let s := strReplace (strReplace (strTrim s) "\n" " ") "  " " "
  strReplace (strReplace (strReplace (strReplace (strLower s) " " "_") "(" "") ")" "") "%" "pct"

def standardize_df (df : DataFrame) : DataFrame :=
  { df with columns := df.columns.map standardizeName }

/-- One cell of the result of `pd.to_numeric(col, errors="coerce")`:
coercion failures become NaN. -/
def toNumericCell (c : Cell) : Cell :=
  match c.toNumeric with
  | some q => Cell.num q
  | none => Cell.null

/-- True when the coerced cell survives `astype("Int64")`: NaN becomes a
nullable NA and integral numbers cast, while a fractional number makes
the whole cast raise. -/
def int64Castable (c : Cell) : Bool :=
  match c with
  | Cell.num q => q.den == 1
  | _ => true

/-- Embeds the body of `_parse_year` for one column: the column is
replaced by its numeric coercion when the subsequent `astype("Int64")`
cast succeeds; when that cast raises, the exception is swallowed and the
original column is kept whole. -/
def parseYearColumn (col : List Cell) : List Cell :=
  if (col.map toNumericCell).all int64Castable then col.map toNumericCell else col

/-- Embeds `_parse_year`: only the first column literally named `year` is
touched (the loop breaks after the first match). -/
def parse_year (df : DataFrame) : DataFrame :=
  match df.columns.findIdx? (fun c => c = "year") with
  | none => df
  | some i => df.setCol i (parseYearColumn (df.getCol i))

/-! ## Embedding of the API pagination loop `_fetch_api_pages` -/

/-- One page of an API response: the number of records in the batch and
the server-declared `total` and `count` fields when they are integers
(the source ignores them otherwise; `count` already stands for
`payload.get("count") or payload.get("records_count")`). -/
structure Page where
  records : ℕ
  total : Option ℤ
  count : Option ℤ
deriving DecidableEq, Repr

/-- The pagination loop of `_fetch_api_pages` against an abstract
endpoint mapping an offset to a page.  The fuel argument realises the
`while len(pages) < 200` guard: every non-breaking iteration appends
exactly one page, so fuel 200 with an empty accumulator is exact.  The
result records the offset each page was fetched at. -/
def fetchPagesLoop (ep : ℕ → Page) (limit : ℕ) :
    ℕ → ℕ → ℕ → List (ℕ × Page) → List (ℕ × Page)
  | 0, _, _, pages => pages
  | fuel + 1, offset, visited, pages =>
    let page := ep offset
    if page.records = 0 then pages
    else
      let pages := pages ++ [(offset, page)]
      let visited := visited + page.records
      if (match page.total with
          | some t => decide ((visited : ℤ) ≥ t)
          | none => false) then pages
      else if (match page.count with
          | some c => decide (c < (limit : ℤ))
          | none => decide (page.records < limit)) then pages
      else if page.total = none ∧ page.records < limit then pages
      else
        let offset := offset + limit
        if offset > 200000 then pages
        else fetchPagesLoop ep limit fuel offset visited pages

def fetchApiPages (ep : ℕ → Page) (limit : ℕ) : List (ℕ × Page) :=
  fetchPagesLoop ep limit 200 0 0 []

/-- An endpoint that always returns a full page of `limit` records with
no total or count fields. -/
def fullPageEndpoint (limit : ℕ) : ℕ → Page := fun _ => ⟨limit, none, none⟩

/-! ## Embedding of the acquisition resolver `DataGovInConnector.run`

Network and filesystem effects are supplied by an explicit environment:
the manual file contents (when the file exists), the outcome of the API
fetch, the resource page fetch, the regex candidate extraction from the
fetched HTML, the URL path component, and the per-candidate download
and parse outcome. -/

structure Source where
  source_id : String
  auth : Option String
  allow_auto_fetch : Bool
  access_type : Option String
  url : String
  resource_id : Option String
  resource_id_env : Option String
  api_key_env : Option String
  resource_page_url : Option String
  resource_file_urls : List String
  manual_fallback : Bool
  dataset_title : Option String
deriving DecidableEq, Repr

/-- Python truthiness of an optional string field. -/
def strTruthy : Option String → Bool
  | some s => s ≠ ""
  | none => false

structure Env where
  envVars : String → Option String
  now : String
  manual : Option DataFrame
  apiOutcome : Except String DataFrame
  fetchPage : String → Except String (ℕ × String)
  extractCandidates : String → List String
  candidatePath : String → String
  readCandidate : String → Except String (Option DataFrame)

/-- Keeps the first occurrence of each element, as the dedup loops in
the connector do. -/
def dedupKeepFirst {α : Type} [DecidableEq α] (l : List α) : List α :=
  l.foldl (fun acc x => if x ∈ acc then acc else acc ++ [x]) []

/-- Embeds `resource_id = source.get("resource_id") or source.get("resource_id_env")`,
the placeholder filter, and the environment lookup fallback. -/
def resolveResourceId (env : Env) (src : Source) : Option String :=
  let rid0 :=
    if strTruthy src.resource_id then src.resource_id
    else if strTruthy src.resource_id_env then src.resource_id_env
    else none
  let rid1 := match rid0 with
    | some r => if strStartsWith r "PLACEHOLDER_" then none else some r
    | none => none
  match rid1 with
  | some r => some r
  | none =>
    if strTruthy src.resource_id_env then
      env.envVars (strTrim (src.resource_id_env.getD ""))
    else none

/-- Embeds the api_url computation: the inventory URL when auto fetch is
allowed for an API access type, then the resource id substitution when
the id and key are both present. -/
def computeApiUrl (src : Source) (rid : Option String) : String :=
  let apiUrl := if src.allow_auto_fetch ∧ src.access_type = some "API" then src.url else ""
  if apiUrl ≠ "" ∧ strTruthy rid ∧ strTruthy src.api_key_env then
    strReplace apiUrl "{resource_id}" (rid.getD "")
  else apiUrl

/-- Mutable working state of one resolution, the local variables
`df_frames`, `status`, `skip_reason` and `anchor` of `run`, plus a trace
of which fallback strategies ran. -/
structure Acc where
  frames : List DataFrame
  status : String
  skipReason : Option String
  anchor : String
  pageAttempted : Bool
  manualUsed : Bool
deriving DecidableEq, Repr

/-- Embeds the API strategy block.  When the computed api url is truthy
but `api_key_env` is absent, building the query params evaluates
`os.getenv(None, "")`, which raises an uncaught TypeError; that is the
only way this phase escapes. -/
def apiPhase (env : Env) (src : Source) : Except String Acc :=
  let acc0 : Acc := ⟨[], "candidate_ready", none, "manual_upload", false, false⟩
  let rid := resolveResourceId env src
  let apiUrl := computeApiUrl src rid
  if apiUrl ≠ "" then
    match src.api_key_env with
    | none => Except.error "TypeError: getenv key must be a string"
    | some _ =>
      match env.apiOutcome with
      | Except.error e =>
        Except.ok { acc0 with skipReason := some ("api_fetch_failed:" ++ e) }
      | Except.ok t =>
        Except.ok { acc0 with
          frames := if t.isEmpty then [] else [t],
          status := "automated",
          anchor := "api:" ++ src.source_id ++ ":" ++ (match rid with | some r => r | none => "None") }
  else Except.ok acc0

/-- Embeds `_normalize_resource_url` composed with the dedup of
`_collect_resource_file_urls`.  Explicit inventory file URLs win; the
page-derived candidates are used only when no explicit URL is given. -/
def collectResourceFileUrls (env : Env) (src : Source) (pageHtml : String) : List String :=
  let explicit := src.resource_file_urls
  let candidates :=
    if explicit = [] ∧ pageHtml ≠ "" then env.extractCandidates pageHtml else explicit
  let normalized := (candidates.filter (fun v => v ≠ "")).map
    (fun v => strReplace (strTrim v) " " "%20")
  dedupKeepFirst normalized

/-- Strips trailing slash characters, as `path.rstrip("/")` does. -/
def rstripSlash (s : String) : String :=
  String.mk ((s.data.reverse.dropWhile (fun c => c = '/')).reverse)

/-- The candidate loop of the page discovery strategy: skip candidates
whose normalized URL path was already seen, tolerate per-candidate fetch
and parse failures, skip empty tables, and stop at the first usable
non-empty table. -/
def tryCandidates (env : Env) : List String → List String → Option (DataFrame × String)
  | [], _ => none
  | c :: rest, seen =>
    let path := strLower (rstripSlash (env.candidatePath c))
    if path ∈ seen then tryCandidates env rest seen
    else
      let seen := path :: seen
      match env.readCandidate c with
      | Except.error _ => tryCandidates env rest seen
      | Except.ok none => tryCandidates env rest seen
      | Except.ok (some df) =>
        if df.isEmpty then tryCandidates env rest seen else some (df, c)

/-- The resource page fetch of the page discovery strategy:
`requests.get(resource_url, ...) if resource_url else None`, with a
network failure surfaced as an error for the outer except clause. -/
def pageFetchResult (env : Env) (src : Source) : Except String (Option (ℕ × String)) :=
  if strTruthy src.resource_page_url then
    match env.fetchPage (src.resource_page_url.getD "") with
    | Except.error e => Except.error e
    | Except.ok r => Except.ok (some r)
  else Except.ok none

/-- Embeds `page_html`: the response text below status 400, otherwise
the empty string. -/
def pageHtmlOf (resp : Option (ℕ × String)) : String :=
  match resp with
  | some (code, text) => if code < 400 then text else ""
  | none => ""

/-- The candidate list: the collected and normalized URLs, with a
second raw extraction pass when the first collection is empty. -/
def pageCandidates (env : Env) (src : Source) (pageHtml : String) : List String :=
  let candidates0 := collectResourceFileUrls env src pageHtml
  if candidates0 = [] then
    (if pageHtml = "" then [] else env.extractCandidates pageHtml)
  else candidates0

/-- Embeds the page discovery strategy block.  The block is guarded by
an empty frame list; any failure inside it, including the RuntimeError
raised when the candidate loop finds nothing, is caught by the outer
except clause and recorded as a skip reason. -/
def pagePhase (env : Env) (src : Source) (acc : Acc) : Acc :=
  if acc.frames = [] ∧ src.allow_auto_fetch ∧
      (strTruthy src.resource_page_url ∨ src.resource_file_urls ≠ []) then
    let acc := { acc with pageAttempted := true }
    match pageFetchResult env src with
    | Except.error e => { acc with skipReason := some ("official_page_fetch_failed:" ++ e) }
    | Except.ok resp =>
      match tryCandidates env (pageCandidates env src (pageHtmlOf resp)) [] with
      | some (df, c) =>
        { acc with
            frames := [df]
            status := "ok"
            anchor := "resource_file:" ++ c
            skipReason := none }
      | none =>
        { acc with skipReason := some ("official_page_fetch_failed:" ++
            "No downloadable official table/file link was discoverable from resource page metadata.") }
  else acc

/-- Embeds the manual fallback block: only when no automated strategy
produced a frame, a manual file exists, and manual fallback is not
disabled for the source. -/
def manualPhase (env : Env) (src : Source) (acc : Acc) : Acc :=
  if acc.frames = [] ∧ src.manual_fallback then
    match env.manual with
    | some m =>
      { acc with
          frames := [m]
          status := "manual_ingest"
          anchor := "manual_upload"
          manualUsed := true }
    | none => acc
  else acc

/-- Embeds `pd.concat(frames, ignore_index=True)`: the column union in
first-seen order, rows reindexed with NaN fill. -/
def concatFrames (fs : List DataFrame) : DataFrame :=
  let cols := dedupKeepFirst (fs.map (fun f => f.columns)).flatten
  { columns := cols,
    rows := (fs.map (fun f => f.rows.map (fun r =>
      cols.map (fun c =>
        match f.columns.findIdx? (fun c2 => c2 = c) with
        | some i => r.getD i Cell.null
        | none => Cell.null)))).flatten }

/-- Embeds `drop_duplicates(ignore_index=True)` on rows. -/
def dropDuplicateRows (df : DataFrame) : DataFrame :=
  { df with rows := dedupKeepFirst df.rows }

def cellOfOptText (o : Option String) : Cell :=
  match o with
  | some s => Cell.text s none
  | none => Cell.null

/-- Embeds `df[name] = value` for a column that may be absent: appended
at the end when new. -/
def addDefaultCol (df : DataFrame) (name : String) (v : Cell) : DataFrame :=
  if name ∈ df.columns then df
  else { columns := df.columns ++ [name], rows := df.rows.map (fun r => r ++ [v]) }

/-- Embeds the unconditional `df["retrieved_at"] = now` assignment. -/
def setConstCol (df : DataFrame) (name : String) (v : Cell) : DataFrame :=
  match df.columns.findIdx? (fun c => c = name) with
  | some i => { df with rows := df.rows.map (fun r => r.set i v) }
  | none => { columns := df.columns ++ [name], rows := df.rows.map (fun r => r ++ [v]) }

/-- The shared provenance column block of the connectors: default
`source_type`, `source_id`, `metric_category` and `dataset_source`
columns, then the `retrieved_at` stamp. -/
def addProvenanceCols (src : Source) (now : String) (df : DataFrame) : DataFrame :=
  let df := addDefaultCol df "source_type" (Cell.text "official_measured" none)
  let df := addDefaultCol df "source_id" (Cell.text src.source_id none)
  let df := addDefaultCol df "metric_category" (Cell.text "official_measured" none)
  let df := addDefaultCol df "dataset_source" (cellOfOptText src.dataset_title)
  setConstCol df "retrieved_at" (Cell.text now none)

/-- The normalization chain applied to the winning frame before the
output table is written: duplicate row removal (guarded on a non-empty
frame), column standardization, year coercion, provenance columns. -/
def normalizeOutput (src : Source) (now : String) (df : DataFrame) : DataFrame :=
  let df := if df.isEmpty then df else dropDuplicateRows df
  let df := standardize_df df
  let df := parse_year df
  addProvenanceCols src now df

/-- Result of one resolution: the manifest status and skip reason,
whether an output table was written, the frame list at the decision
point, a trace of the fallback strategies, and the written table. -/
structure RunResult where
  source_id : String
  status : String
  skipReason : Option String
  wrote : Bool
  frames : List DataFrame
  pageAttempted : Bool
  manualUsed : Bool
  output : Option DataFrame
  rowCount : Option ℕ
deriving DecidableEq, Repr

/-- Embeds `DataGovInConnector.run`.  The auth gate and the failed
terminal state return without ever reaching `write_parquet`; the error
case carries the one uncaught exception of the method. -/
def runConnector (env : Env) (src : Source) : Except String RunResult :=
  if src.auth = some "restricted" ∨ src.auth = some "captcha" then
    Except.ok ⟨src.source_id, "disabled", some "auth_restriction",
      false, [], false, false, none, none⟩
  else
    match apiPhase env src with
    | Except.error e => Except.error e
    | Except.ok acc =>
      let acc := pagePhase env src acc
      let acc := manualPhase env src acc
      if acc.frames = [] then
        Except.ok ⟨src.source_id, "failed",
          some (acc.skipReason.getD "no_source_data_available"),
          false, [], acc.pageAttempted, acc.manualUsed, none, none⟩
      else
        let df := normalizeOutput src env.now (concatFrames acc.frames)
        Except.ok ⟨src.source_id, acc.status, acc.skipReason, true,
          acc.frames, acc.pageAttempted, acc.manualUsed, some df, some df.rows.length⟩

/-- The result `DataGovInConnector.run` returns when the API strategy
wins with a non-empty table: the API frame alone reaches normalization,
the later strategies leave no trace, and the output table is written. -/
def apiSuccessResult (env : Env) (src : Source) (t : DataFrame) : RunResult :=
  ⟨src.source_id, "automated", none, true, [t], false, false,
   some (normalizeOutput src env.now (concatFrames [t])),
   some (normalizeOutput src env.now (concatFrames [t])).rows.length⟩

/-! ## Embedding of the stub connector placeholder path
(src/pipelines/connectors/stub_connectors.py, ProcurementAwardsConnector) -/

/-- Embeds `_manual_status`. -/
def manualStatus (src : Source) : String :=
  if src.allow_auto_fetch then "candidate_ready" else "stubbed_manual_gap"

/-- The one-row placeholder table the procurement stub writes when no
manual file exists. -/
def procurementPlaceholder (src : Source) (now : String) : DataFrame :=
  ⟨["source_id", "source_type", "dataset_source", "metric_name", "metric_value",
    "unit", "retrieved_at", "metric_category", "notes"],
   [[Cell.text src.source_id none, Cell.text "official_measured" none,
     cellOfOptText src.dataset_title, Cell.text "procurement_notice_availability" none,
     Cell.num 0, Cell.text "binary" none, Cell.text now none,
     Cell.text "official_measured" none,
     Cell.text "No public/easy API; add approved manual notices file." none]]⟩

/-- Embeds `ProcurementAwardsConnector.run`: a missing manual file still
writes a one-row placeholder table with a placeholder status, a present
manual file is normalized and written with status manual_ingest. -/
def stubConnectorRun (env : Env) (src : Source) : RunResult :=
  match env.manual with
  | none =>
    let df := procurementPlaceholder src env.now
    ⟨src.source_id, manualStatus src, some "no_manual_procurement_csv",
      true, [df], false, false, some df, some df.rows.length⟩
  | some m =>
    let df := addProvenanceCols src env.now m
    ⟨src.source_id, "manual_ingest", none, true, [m], false, true,
      some df, some df.rows.length⟩

/-! ## Embedding of the correlation pair loop `_pairwise_corr`
(src/pipelines/correlation.py) -/

/-- One row of the widened entity and year grid: the join keys are never
null after the pivot and outer merge, the metric values are nullable and
aligned with the metric column list positionally. -/
structure WideRow where
  entity : String
  year : ℤ
  vals : List (Option ℚ)
deriving DecidableEq, Repr

structure WideDF where
  metricCols : List String
  rows : List WideRow
deriving DecidableEq, Repr

/-- The co-observed rows of one metric pair, the embedding of
`wide_df[["year", col_a, col_b]].dropna()`. -/
def pairRows (w : WideDF) (i j : ℕ) : List (ℤ × ℚ × ℚ) :=
  w.rows.filterMap (fun r =>
    match r.vals.getD i none, r.vals.getD j none with
    | some a, some b => some (r.year, a, b)
    | _, _ => none)

/-- Distinct value count, the embedding of `nunique(dropna=True)` on an
already non-null column. -/
def nuniqueQ (xs : List ℚ) : ℕ := xs.dedup.length

/-- Sum of squared deviations from the mean.  The Pearson correlation of
the pair is a real number with denominator the square root of the
product of the two sums; it is NaN exactly when one of them vanishes. -/
def sumSqDev (xs : List ℚ) : ℚ :=
  if xs.length = 0 then 0
  else
    let m := xs.sum / xs.length
    (xs.map (fun x => (x - m) ^ 2)).sum

/-- A surviving correlation record.  The real-valued Pearson coefficient
itself is irrational in general; the record keeps the covariance and the
two squared deviation sums that define it. -/
structure CorrRecord where
  metric_a : String
  metric_b : String
  source_a : Option String
  source_b : Option String
  covariance : ℚ
  devA : ℚ
  devB : ℚ
  overlap_records : ℕ
  year_min : Option ℤ
  year_max : Option ℤ
deriving DecidableEq, Repr

def listMinInt (l : List ℤ) : Option ℤ :=
  match l with
  | [] => none
  | x :: xs => some (xs.foldl min x)

def listMaxInt (l : List ℤ) : Option ℤ :=
  match l with
  | [] => none
  | x :: xs => some (xs.foldl max x)

def covariance (ps : List (ℚ × ℚ)) : ℚ :=
  if ps.length = 0 then 0
  else
    let ma := (ps.map Prod.fst).sum / ps.length
    let mb := (ps.map Prod.snd).sum / ps.length
    (ps.map (fun p => (p.1 - ma) * (p.2 - mb))).sum

/-- The body of the pair loop of `_pairwise_corr` for one metric pair:
skip on insufficient overlap, skip on a degenerate column, skip when the
Pearson coefficient is undefined, otherwise emit one record. -/
def pairRecord (w : WideDF) (meta : List (String × String)) (minOverlap : ℕ)
    (i j : ℕ) : Option CorrRecord :=
  let pr := pairRows w i j
  let as := pr.map (fun t => t.2.1)
  let bs := pr.map (fun t => t.2.2)
  if pr.length < minOverlap then none
  else if nuniqueQ as ≤ 1 ∨ nuniqueQ bs ≤ 1 then none
  else if sumSqDev as = 0 ∨ sumSqDev bs = 0 then none
  else some
    { metric_a := w.metricCols.getD i ""
      metric_b := w.metricCols.getD j ""
      source_a := (meta.filter (fun p => p.1 = w.metricCols.getD i "")).head?.map Prod.snd
      source_b := (meta.filter (fun p => p.1 = w.metricCols.getD j "")).head?.map Prod.snd
      covariance := covariance (as.zip bs)
      devA := sumSqDev as
      devB := sumSqDev bs
      overlap_records := pr.length
      year_min := listMinInt (pr.map (fun t => t.1))
      year_max := listMaxInt (pr.map (fun t => t.1)) }

/-- The index pairs visited by `itertools.combinations(metric_cols, 2)`. -/
def idxPairs (n : ℕ) : List (ℕ × ℕ) :=
  (List.range n).flatMap (fun i =>
    ((List.range n).filter (fun j => decide (i < j))).map (fun j => (i, j)))

/-- Embeds `_pairwise_corr`: the early returns on an empty grid or fewer
than two metric columns, then the pair loop. -/
def pairwise_corr (w : WideDF) (meta : List (String × String)) (minOverlap : ℕ) :
    List CorrRecord :=
  if w.rows.isEmpty then []
  else if w.metricCols.length < 2 then []
  else (idxPairs w.metricCols.length).filterMap
    (fun p => pairRecord w meta minOverlap p.1 p.2)

/-! ## Concrete inputs used by counterexamples and witnesses -/

/-- A one-cell table with no missing values. -/
def dfOne : DataFrame := ⟨["v"], [[Cell.num 1]]⟩

/-- A scoring context with acquisition status disabled, reliability
grade A and an official flag. -/
def itemDisabled : Item := ⟨"disabled", "A", true, none, none⟩

/-- A ten-row manual table whose declared non-negative column `amount`
contains one negative value. -/
def df10 : DataFrame :=
  ⟨["state", "year", "amount"],
   [[Cell.text "KA" none, Cell.num 2018, Cell.num 10],
    [Cell.text "KA" none, Cell.num 2019, Cell.num 11],
    [Cell.text "KA" none, Cell.num 2020, Cell.num 12],
    [Cell.text "KA" none, Cell.num 2021, Cell.num (-5)],
    [Cell.text "MH" none, Cell.num 2018, Cell.num 14],
    [Cell.text "MH" none, Cell.num 2019, Cell.num 15],
    [Cell.text "MH" none, Cell.num 2020, Cell.num 16],
    [Cell.text "MH" none, Cell.num 2021, Cell.num 17],
    [Cell.text "TN" none, Cell.num 2018, Cell.num 18],
    [Cell.text "TN" none, Cell.num 2019, Cell.num 19]]⟩

/-- The manual-ingest scoring context of the claimed example scenario. -/
def itemManual : Item := ⟨"manual_ingest", "C", true, none, some "annual"⟩

/-- A source whose API, page discovery and manual strategies are all
unavailable: automated fetch is disabled and no manual file exists. -/
def srcFailedAll : Source :=
  ⟨"data_gov_in_nhai_projects_api", none, false, some "API",
   "https://api.data.gov.in/resource/{resource_id}", none, none, some "KEY",
   none, [], true, none⟩

/-- An environment with no manual file and failing network. -/
def envFailedAll : Env :=
  ⟨fun _ => none, "2026-01-01T00:00:00+00:00", none, Except.error "refused",
   fun _ => Except.error "refused", fun _ => [], fun s => s,
   fun _ => Except.error "refused"⟩

/-- A year column with one value whose numeric coercion fails. -/
def dfYear : DataFrame := ⟨["year"], [[Cell.num 2001], [Cell.text "abc" none]]⟩

/-- A source for which the API strategy is configured and succeeds. -/
def srcApiOk : Source :=
  ⟨"data_gov_in_nhai_projects_api", none, true, some "API",
   "https://api.data.gov.in/resource/{resource_id}", some "rid-123", none,
   some "DATA_GOV_IN_API_KEY", some "https://data.gov.in/page", [], true,
   some "NHAI projects"⟩

/-- A non-empty API result table. -/
def tApi : DataFrame := ⟨["State", "Year"], [[Cell.text "KA" none, Cell.num 2020]]⟩

/-- An environment where the API fetch returns `tApi` and a manual file
is also present. -/
def envApiOk : Env :=
  ⟨fun _ => none, "2026-01-01T00:00:00+00:00", some dfOne, Except.ok tApi,
   fun _ => Except.error "refused", fun _ => [], fun s => s,
   fun _ => Except.error "refused"⟩

/-- A widened grid with two metric columns, five overlapping rows and
non-constant values, from the example scenario of the spec. -/
def wideEx : WideDF :=
  ⟨["s1.len", "s2.cost"],
   [⟨"KA", 2018, [some 1, some 2]⟩,
    ⟨"KA", 2019, [some 2, some 3]⟩,
    ⟨"MH", 2018, [some 3, some 5]⟩,
    ⟨"MH", 2019, [some 4, some 7]⟩,
    ⟨"TN", 2018, [some 5, some 11]⟩]⟩

/-! ## Helper lemmas -/

theorem statusFactor_le_one (s : String) : statusFactor s ≤ 1 := by
  simp only [statusFactor]
  split_ifs <;> norm_num

theorem statusFactor_ge (s : String) : 11/50 ≤ statusFactor s := by
  simp only [statusFactor]
  split_ifs <;> norm_num

theorem provenance_score_le_one (item : Item) : provenance_score item ≤ 1 := by
  simp only [provenance_score]
  split_ifs <;> norm_num

theorem provenance_score_nonneg (item : Item) : 0 ≤ provenance_score item := by
  simp only [provenance_score]
  split_ifs <;> norm_num

theorem strLower_disabled : strLower "disabled" = "disabled" := by decide

theorem strLower_manual : strLower "manual_ingest" = "manual_ingest" := by decide

theorem strLower_automated : strLower "automated" = "automated" := by decide

theorem strUpper_A : strUpper "A" = "A" := by decide

theorem strUpper_C : strUpper "C" = "C" := by decide

theorem statusFactor_disabled : statusFactor "disabled" = 11/50 := by
  simp [statusFactor, strLower_disabled]

theorem statusFactor_manual : statusFactor "manual_ingest" = 49/50 := by
  simp [statusFactor, strLower_manual]

theorem statusFactor_automated : statusFactor "automated" = 1 := by
  simp [statusFactor, strLower_automated]

theorem evaluate_completeness (df : DataFrame) (item : Item) :
    (evaluate df item).completeness_score =
      min (completeness_score df)
        (if statusFactor item.status ≤ 1 then statusFactor item.status
         else completeness_score df) := rfl

theorem evaluate_recency (df : DataFrame) (item : Item) :
    (evaluate df item).recency_score =
      min (recency_score item.retrievedAgeDays item.update_frequency)
        (max (1/5) (statusFactor item.status)) := rfl

theorem evaluate_provenance (df : DataFrame) (item : Item) :
    (evaluate df item).provenance_score =
      provenance_score item * max (1/4) (statusFactor item.status) := rfl

theorem evaluate_consistency (df : DataFrame) (item : Item) :
    (evaluate df item).consistency_score =
      min (consistency_score df []) (max (1/5) (statusFactor item.status)) := rfl

/-! ## C1 -/

/-- C1: the claim states that all four sub-scores returned by evaluate
are at most the status ceiling.  This is false for the provenance
sub-score under the status disabled: its ceiling is 0.22, but the
provenance score of a grade A official source is scaled by
max(0.25, 0.22) = 0.25 and therefore reports 0.25. -/
theorem c1_status_ceiling_counterexample :
    (evaluate dfOne itemDisabled).provenance_score = 1/4 ∧
    statusFactor itemDisabled.status = 11/50 ∧
    ¬ ((evaluate dfOne itemDisabled).provenance_score ≤
        statusFactor itemDisabled.status) := by
  have hst : statusFactor itemDisabled.status = 11/50 := statusFactor_disabled
  have hp : provenance_score itemDisabled = 1 := by
    simp [provenance_score, itemDisabled, strUpper_A]
  have hv : (evaluate dfOne itemDisabled).provenance_score = 1/4 := by
    rw [evaluate_provenance, hp, hst]
    norm_num [max_def]
  refine ⟨hv, hst, ?_⟩
  rw [hv, hst]
  norm_num

/-- C1 (amended): for every table and scoring context, the completeness,
recency and consistency sub-scores of evaluate are at most the status
ceiling, and the provenance sub-score is at most max(0.25, ceiling),
which exceeds the ceiling only for the status disabled (ceiling 0.22). -/
theorem c1_amended_status_ceiling (df : DataFrame) (item : Item) :
    (evaluate df item).completeness_score ≤ statusFactor item.status ∧
    (evaluate df item).recency_score ≤ statusFactor item.status ∧
    (evaluate df item).consistency_score ≤ statusFactor item.status ∧
    (evaluate df item).provenance_score ≤ max (1/4) (statusFactor item.status) := by
  have h1 := statusFactor_le_one item.status
  have h2 := statusFactor_ge item.status
  have hmax : max (1/5 : ℚ) (statusFactor item.status) = statusFactor item.status :=
    max_eq_right (le_trans (by norm_num) h2)
  refine ⟨?_, ?_, ?_, ?_⟩
  · rw [evaluate_completeness, if_pos h1]
    exact min_le_right _ _
  · rw [evaluate_recency, hmax]
    exact min_le_right _ _
  · rw [evaluate_consistency, hmax]
    exact min_le_right _ _
  · rw [evaluate_provenance]
    exact mul_le_of_le_one_left
      (le_trans (by norm_num) (le_max_left (1/4) (statusFactor item.status)))
      (provenance_score_le_one item)

/-! ## C2 -/

/-- C2: when every strategy is exhausted the connector returns a
manifest with status failed but never reaches `write_parquet`, so no
placeholder table is written for the failed source; the one-row
placeholder tables are written only by the stub connectors, whose
placeholder statuses are candidate_ready or stubbed_manual_gap, never
failed.  This contradicts the claim (and the repository validator,
which reports a missing output parquet as an error). -/
theorem c2_failed_writes_no_table :
    runConnector envFailedAll srcFailedAll =
      Except.ok ⟨"data_gov_in_nhai_projects_api", "failed",
        some "no_source_data_available", false, [], false, false, none, none⟩ ∧
    (stubConnectorRun envFailedAll srcFailedAll).wrote = true ∧
    (stubConnectorRun envFailedAll srcFailedAll).status = "stubbed_manual_gap" ∧
    (stubConnectorRun envFailedAll srcFailedAll).rowCount = some 1 ∧
    (stubConnectorRun envFailedAll srcFailedAll).status ≠ "failed" := by
  refine ⟨rfl, rfl, rfl, rfl, by decide⟩

/-! ## C3 -/

theorem apiPhase_frames (env : Env) (src : Source) (acc : Acc)
    (h : apiPhase env src = Except.ok acc) : acc.frames.length ≤ 1 := by
  simp only [apiPhase] at h
  split_ifs at h with h1
  · cases hk : src.api_key_env with
    | none =>
      rw [hk] at h
      cases h
    | some k =>
      rw [hk] at h
      cases ho : env.apiOutcome with
      | error e =>
        rw [ho] at h
        cases h
        simp
      | ok t =>
        rw [ho] at h
        cases h
        by_cases ht : t.isEmpty
        · simp [ht]
        · simp [ht]
  · cases h
    simp

theorem pagePhase_frames (env : Env) (src : Source) (acc : Acc) :
    (pagePhase env src acc).frames = acc.frames ∨
    (pagePhase env src acc).frames.length = 1 := by
  simp only [pagePhase]
  split_ifs with h1
  · cases hpf : pageFetchResult env src with
    | error e => exact Or.inl rfl
    | ok resp =>
      dsimp only
      cases htc : tryCandidates env (pageCandidates env src (pageHtmlOf resp)) [] with
      | none => exact Or.inl rfl
      | some dc => exact Or.inr rfl
  · exact Or.inl rfl

theorem manualPhase_frames (env : Env) (src : Source) (acc : Acc) :
    (manualPhase env src acc).frames = acc.frames ∨
    (manualPhase env src acc).frames.length = 1 := by
  simp only [manualPhase]
  split_ifs with h1
  · split
    · exact Or.inr rfl
    · exact Or.inl rfl
  · exact Or.inl rfl

theorem runConnector_frames_le_one (env : Env) (src : Source) (r : RunResult)
    (h : runConnector env src = Except.ok r) : r.frames.length ≤ 1 := by
  simp only [runConnector] at h
  split_ifs at h with hauth
  · cases h
    simp
  · cases hap : apiPhase env src with
    | error e =>
      rw [hap] at h
      cases h
    | ok acc =>
      rw [hap] at h
      dsimp only at h
      have ha : acc.frames.length ≤ 1 := apiPhase_frames env src acc hap
      have hpa : (pagePhase env src acc).frames.length ≤ 1 := by
        rcases pagePhase_frames env src acc with he | hl
        · rw [he]; exact ha
        · omega
      have hma : (manualPhase env src (pagePhase env src acc)).frames.length ≤ 1 := by
        rcases manualPhase_frames env src (pagePhase env src acc) with he | hl
        · rw [he]; exact hpa
        · omega
      by_cases hfe : (manualPhase env src (pagePhase env src acc)).frames = []
      · rw [if_pos hfe] at h
        cases h
        simp
      · rw [if_neg hfe] at h
        cases h
        exact hma

theorem runConnector_api_success (env : Env) (src : Source) (t : DataFrame)
    (hA1 : src.auth ≠ some "restricted") (hA2 : src.auth ≠ some "captcha")
    (hUrl : computeApiUrl src (resolveResourceId env src) ≠ "")
    (k : String) (hKey : src.api_key_env = some k)
    (hApi : env.apiOutcome = Except.ok t)
    (hNE : t.isEmpty = false) :
    runConnector env src = Except.ok (apiSuccessResult env src t) := by
  have hauth : ¬ (src.auth = some "restricted" ∨ src.auth = some "captcha") := by
    rintro (hx | hx)
    · exact hA1 hx
    · exact hA2 hx
  have hap : apiPhase env src = Except.ok
      ⟨[t], "automated", none,
       "api:" ++ src.source_id ++ ":" ++
         (match resolveResourceId env src with | some r => r | none => "None"),
       false, false⟩ := by
    simp only [apiPhase, hKey, hApi, hNE, ne_eq, hUrl, not_false_eq_true, if_true,
      Bool.false_eq_true, if_false]
  simp only [runConnector, if_neg hauth, hap]
  have hframes : ([t] : List DataFrame) ≠ [] := by simp
  simp only [pagePhase, manualPhase]
  simp [hframes, apiSuccessResult]

/-- C3: when the API strategy succeeds with a non-empty table, the page
discovery and manual strategies are never attempted, the run result is
built from the API frame alone (so the manual file contents never reach
the normalized output, and changing the manual file does not change the
result), and in every run at most one strategy frame survives, so
results from different strategies are never merged. -/
theorem c3_api_strategy_wins (env : Env) (src : Source) (t : DataFrame)
    (hA1 : src.auth ≠ some "restricted") (hA2 : src.auth ≠ some "captcha")
    (hUrl : computeApiUrl src (resolveResourceId env src) ≠ "")
    (k : String) (hKey : src.api_key_env = some k)
    (hApi : env.apiOutcome = Except.ok t)
    (hNE : t.isEmpty = false) :
    runConnector env src = Except.ok (apiSuccessResult env src t) ∧
    (apiSuccessResult env src t).frames = [t] ∧
    (apiSuccessResult env src t).pageAttempted = false ∧
    (apiSuccessResult env src t).manualUsed = false ∧
    (apiSuccessResult env src t).status = "automated" ∧
    (apiSuccessResult env src t).output =
      some (normalizeOutput src env.now (concatFrames [t])) ∧
    (∀ m, runConnector { env with manual := m } src = runConnector env src) ∧
    (∀ (env2 : Env) (src2 : Source) (r : RunResult),
      runConnector env2 src2 = Except.ok r → r.frames.length ≤ 1) := by
  have hmain := runConnector_api_success env src t hA1 hA2 hUrl k hKey hApi hNE
  refine ⟨hmain, rfl, rfl, rfl, rfl, rfl, ?_, runConnector_frames_le_one⟩
  intro m
  have h2 : runConnector { env with manual := m } src =
      Except.ok (apiSuccessResult { env with manual := m } src t) :=
    runConnector_api_success { env with manual := m } src t hA1 hA2 hUrl k hKey hApi hNE
  rw [h2, hmain]
  rfl

/-- C3 witness: with the concrete API success environment, the API
frame alone survives. -/
theorem c3_api_strategy_wins_witness :
    (apiSuccessResult envApiOk srcApiOk tApi).frames = [tApi] :=
  (c3_api_strategy_wins envApiOk srcApiOk tApi (by decide) (by decide) (by decide)
    "DATA_GOV_IN_API_KEY" rfl rfl (by decide)).2.1

/-! ## C4 -/

theorem mem_idxPairs {n i j : ℕ} (hij : i < j) (hj : j < n) :
    (i, j) ∈ idxPairs n := by
  unfold idxPairs
  refine List.mem_flatMap.mpr ⟨i, List.mem_range.mpr (lt_trans hij hj), ?_⟩
  exact List.mem_map.mpr
    ⟨j, List.mem_filter.mpr ⟨List.mem_range.mpr hj, by simpa using hij⟩, rfl⟩

theorem pairRecord_isSome_iff (w : WideDF) (meta : List (String × String))
    (minOverlap i j : ℕ) :
    ((pairRecord w meta minOverlap i j).isSome = true ↔
      (minOverlap ≤ (pairRows w i j).length ∧
       1 < nuniqueQ ((pairRows w i j).map (fun t => t.2.1)) ∧
       1 < nuniqueQ ((pairRows w i j).map (fun t => t.2.2)) ∧
       sumSqDev ((pairRows w i j).map (fun t => t.2.1)) ≠ 0 ∧
       sumSqDev ((pairRows w i j).map (fun t => t.2.2)) ≠ 0)) := by
  simp only [pairRecord]
  split_ifs with h1 h2 h3
  · simp only [Option.isSome_none, Bool.false_eq_true, false_iff, not_and]
    intro ha
    exact absurd ha (by omega)
  · simp only [Option.isSome_none, Bool.false_eq_true, false_iff, not_and]
    intro _ hb hc
    rcases h2 with h2 | h2
    · exact absurd hb (by omega)
    · exact absurd hc (by omega)
  · simp only [Option.isSome_none, Bool.false_eq_true, false_iff, not_and]
    intro _ _ _ hd
    rcases h3 with h3 | h3
    · exact absurd h3 hd
    · exact fun he => he h3
  · simp only [Option.isSome_some, true_iff]
    push_neg at h2 h3
    exact ⟨by omega, by omega, by omega, h3.1, h3.2⟩

/-- C4: one CorrelationRecord is produced for a metric pair exactly when
the co-observed rows reach the overlap threshold, both columns take more
than one distinct value there, and the Pearson coefficient is defined
(both squared deviation sums non-zero); the pair loop visits every
unordered index pair of metric columns once and keeps exactly the
surviving records. -/
theorem c4_correlation_gates (w : WideDF) (meta : List (String × String))
    (minOverlap i j : ℕ) (hij : i < j) (hj : j < w.metricCols.length) :
    ((pairRecord w meta minOverlap i j).isSome = true ↔
      (minOverlap ≤ (pairRows w i j).length ∧
       1 < nuniqueQ ((pairRows w i j).map (fun t => t.2.1)) ∧
       1 < nuniqueQ ((pairRows w i j).map (fun t => t.2.2)) ∧
       sumSqDev ((pairRows w i j).map (fun t => t.2.1)) ≠ 0 ∧
       sumSqDev ((pairRows w i j).map (fun t => t.2.2)) ≠ 0)) ∧
    (i, j) ∈ idxPairs w.metricCols.length ∧
    pairwise_corr w meta minOverlap =
      (if w.rows.isEmpty then []
       else if w.metricCols.length < 2 then []
       else (idxPairs w.metricCols.length).filterMap
         (fun p => pairRecord w meta minOverlap p.1 p.2)) :=
  ⟨pairRecord_isSome_iff w meta minOverlap i j, mem_idxPairs hij hj, rfl⟩

/-- C4 witness: the pair of the two metric columns of the concrete grid
is visited by the loop. -/
theorem c4_correlation_gates_witness :
    ((0 : ℕ), (1 : ℕ)) ∈ idxPairs wideEx.metricCols.length :=
  (c4_correlation_gates wideEx [] 2 0 1 (by omega) (by decide)).2.1

/-! ## C5 -/

theorem countId_append (sid : String) (a b : List CatalogEntry) :
    countId sid (a ++ b) = countId sid a + countId sid b := by
  simp [countId, List.filter_append]

theorem countId_filter_ne_self (m : CatalogEntry) (entries : List CatalogEntry) :
    countId m.source_id
      (entries.filter (fun e => e.source_id ≠ m.source_id)) = 0 := by
  induction entries with
  | nil => rfl
  | cons x xs ih =>
    by_cases hx : x.source_id = m.source_id
    · simp only [countId, List.filter_cons, hx] at ih ⊢
      simp [ih]
    · simp only [countId, List.filter_cons, hx] at ih ⊢
      simp [hx, ih]

theorem countId_filter_le (sid : String) (p : CatalogEntry → Bool)
    (entries : List CatalogEntry) :
    countId sid (entries.filter p) ≤ countId sid entries :=
  List.Sublist.length_le (List.Sublist.filter _ (List.filter_sublist entries))

theorem upsertCatalog_idem (entries : List CatalogEntry) (m : CatalogEntry) :
    upsertCatalog (upsertCatalog entries m) m = upsertCatalog entries m := by
  unfold upsertCatalog
  rw [List.filter_append, List.filter_filter]
  simp

/-- C5: the upsert keeps the at-most-one-entry-per-source-id invariant,
is idempotent for identical input state, leaves exactly one entry for
the upserted source id, and a second identical upsert leaves the total
entry count unchanged. -/
theorem c5_upsert_invariant (entries : List CatalogEntry) (m : CatalogEntry)
    (h : ∀ sid, countId sid entries ≤ 1) :
    (∀ sid, countId sid (upsertCatalog entries m) ≤ 1) ∧
    upsertCatalog (upsertCatalog entries m) m = upsertCatalog entries m ∧
    countId m.source_id (upsertCatalog entries m) = 1 ∧
    (upsertCatalog (upsertCatalog entries m) m).length =
      (upsertCatalog entries m).length := by
  have hcount : ∀ sid, countId sid (upsertCatalog entries m) ≤ 1 := by
    intro sid
    unfold upsertCatalog
    rw [countId_append]
    by_cases hs : sid = m.source_id
    · subst hs
      rw [countId_filter_ne_self]
      simp [countId]
    · have h1 : countId sid [m] = 0 := by
        simp [countId, List.filter_cons, Ne.symm hs]
      rw [h1]
      exact Nat.le_trans
        (by simpa using countId_filter_le sid (fun e => e.source_id ≠ m.source_id) entries)
        (h sid)
  have hone : countId m.source_id (upsertCatalog entries m) = 1 := by
    unfold upsertCatalog
    rw [countId_append, countId_filter_ne_self]
    simp [countId]
  exact ⟨hcount, upsertCatalog_idem entries m, hone,
    congrArg List.length (upsertCatalog_idem entries m)⟩

/-- C5 witness at a concrete catalog and manifest. -/
theorem c5_upsert_invariant_witness :
    (∀ sid, countId sid (upsertCatalog [⟨"a", "v1"⟩] ⟨"a", "v2"⟩) ≤ 1) ∧
    upsertCatalog (upsertCatalog [⟨"a", "v1"⟩] ⟨"a", "v2"⟩) ⟨"a", "v2"⟩ =
      upsertCatalog [⟨"a", "v1"⟩] ⟨"a", "v2"⟩ ∧
    countId "a" (upsertCatalog [⟨"a", "v1"⟩] ⟨"a", "v2"⟩) = 1 ∧
    (upsertCatalog (upsertCatalog [⟨"a", "v1"⟩] ⟨"a", "v2"⟩) ⟨"a", "v2"⟩).length =
      (upsertCatalog [⟨"a", "v1"⟩] ⟨"a", "v2"⟩).length :=
  c5_upsert_invariant [⟨"a", "v1"⟩] ⟨"a", "v2"⟩
    (fun _ => Nat.le_trans (List.length_filter_le _ _) (Nat.le_refl 1))

/-! ## C6 -/

theorem evaluate_badge (df : DataFrame) (item : Item) :
    (evaluate df item).overall_confidence_badge =
      (confidence_badge ⟨(evaluate df item).completeness_score,
        (evaluate df item).recency_score,
        (evaluate df item).provenance_score,
        (evaluate df item).consistency_score⟩).1 := rfl

theorem badge_fst_eq (s : Scores) :
    (confidence_badge s).1 =
      if overallScore s ≥ 17/20 then "High"
      else if overallScore s ≥ 13/20 then "Med" else "Low" := by
  simp only [confidence_badge]
  split_ifs <;> rfl

theorem badgeRank_threshold_mono {a b : ℚ} (hab : a ≤ b) :
    badgeRank (if a ≥ 17/20 then "High" else if a ≥ 13/20 then "Med" else "Low") ≤
      badgeRank (if b ≥ 17/20 then "High" else if b ≥ 13/20 then "Med" else "Low") := by
  have hH : badgeRank "High" = 2 := by decide
  have hM : badgeRank "Med" = 1 := by decide
  have hL : badgeRank "Low" = 0 := by decide
  split_ifs <;> simp [hH, hM, hL] <;> linarith

/-- C6: for a fixed table and otherwise identical context, the overall
badge under status manual_ingest never exceeds the badge under status
automated, in the order Low < Med < High. -/
theorem c6_manual_badge_le_automated (df : DataFrame) (item : Item) :
    badgeRank (evaluate df { item with status := "manual_ingest" }).overall_confidence_badge ≤
      badgeRank (evaluate df { item with status := "automated" }).overall_confidence_badge := by
  have hsm : ({ item with status := "manual_ingest" } : Item).status = "manual_ingest" := rfl
  have hsa : ({ item with status := "automated" } : Item).status = "automated" := rfl
  have hpm : provenance_score { item with status := "manual_ingest" } =
      provenance_score item := rfl
  have hpa : provenance_score { item with status := "automated" } =
      provenance_score item := rfl
  have hrm : recency_score ({ item with status := "manual_ingest" } : Item).retrievedAgeDays
      ({ item with status := "manual_ingest" } : Item).update_frequency =
      recency_score item.retrievedAgeDays item.update_frequency := rfl
  have hra : recency_score ({ item with status := "automated" } : Item).retrievedAgeDays
      ({ item with status := "automated" } : Item).update_frequency =
      recency_score item.retrievedAgeDays item.update_frequency := rfl
  rw [evaluate_badge df { item with status := "manual_ingest" },
      evaluate_badge df { item with status := "automated" },
      badge_fst_eq, badge_fst_eq]
  apply badgeRank_threshold_mono
  simp only [overallScore]
  rw [evaluate_completeness, evaluate_completeness, evaluate_recency, evaluate_recency,
      evaluate_provenance, evaluate_provenance, evaluate_consistency, evaluate_consistency,
      hsm, hsa, hpm, hpa, hrm, hra, statusFactor_manual, statusFactor_automated]
  rw [if_pos (show (49:ℚ)/50 ≤ 1 by norm_num), if_pos (show (1:ℚ) ≤ 1 from le_refl 1)]
  rw [show max ((1:ℚ)/5) (49/50) = 49/50 from by norm_num [max_def],
      show max ((1:ℚ)/5) 1 = 1 from by norm_num [max_def],
      show max ((1:ℚ)/4) (49/50) = 49/50 from by norm_num [max_def],
      show max ((1:ℚ)/4) 1 = 1 from by norm_num [max_def]]
  have hc : min (completeness_score df) ((49:ℚ)/50) ≤ min (completeness_score df) 1 :=
    min_le_min_left _ (by norm_num)
  have hr : min (recency_score item.retrievedAgeDays item.update_frequency) ((49:ℚ)/50) ≤
      min (recency_score item.retrievedAgeDays item.update_frequency) 1 :=
    min_le_min_left _ (by norm_num)
  have hcs : min (consistency_score df []) ((49:ℚ)/50) ≤ min (consistency_score df []) 1 :=
    min_le_min_left _ (by norm_num)
  have hp : provenance_score item * ((49:ℚ)/50) ≤ provenance_score item * 1 :=
    mul_le_mul_of_nonneg_left (by norm_num) (provenance_score_nonneg item)
  linarith

/-! ## C7 -/

theorem fetchPagesLoop_length (ep : ℕ → Page) (limit : ℕ) :
    ∀ (fuel offset visited : ℕ) (pages : List (ℕ × Page)),
      (fetchPagesLoop ep limit fuel offset visited pages).length ≤ pages.length + fuel := by
  intro fuel
  induction fuel with
  | zero =>
    intro o v p
    simp [fetchPagesLoop]
  | succ n ih =>
    intro o v p
    simp only [fetchPagesLoop]
    split_ifs <;>
      first
        | omega
        | (simp only [List.length_append, List.length_cons, List.length_nil]; omega)
        | exact le_trans (ih _ _ _)
            (by simp only [List.length_append, List.length_cons, List.length_nil]; omega)

theorem fetchPagesLoop_offsets (ep : ℕ → Page) (limit : ℕ) :
    ∀ (fuel offset visited : ℕ) (pages : List (ℕ × Page)),
      offset ≤ 200000 → (∀ q ∈ pages, q.1 ≤ 200000) →
      ∀ q ∈ fetchPagesLoop ep limit fuel offset visited pages, q.1 ≤ 200000 := by
  intro fuel
  induction fuel with
  | zero =>
    intro o v p ho hp q hq
    simp only [fetchPagesLoop] at hq
    exact hp q hq
  | succ n ih =>
    intro o v p ho hp q hq
    have hp2 : ∀ q ∈ p ++ [(o, ep o)], q.1 ≤ 200000 := by
      intro q hq2
      rcases List.mem_append.mp hq2 with h | h
      · exact hp q h
      · rcases List.mem_singleton.mp h with rfl
        exact ho
    simp only [fetchPagesLoop] at hq
    split_ifs at hq with h1 h2 h3 h4 h5
    · exact hp q hq
    · exact hp2 q hq
    · exact hp2 q hq
    · exact hp2 q hq
    · exact hp2 q hq
    · exact ih (o + limit) (v + (ep o).records) (p ++ [(o, ep o)]) (by omega) hp2 q hq

/-- C7: for every endpoint behaviour the pagination loop terminates
within the configured ceilings: at most 200 pages are fetched, every
fetch happens at an offset of at most 200000, and against an endpoint
that always returns a full page of 5000 records the loop stops after
exactly 41 pages, once the cumulative offset passes 200000. -/
theorem c7_pagination_bounded (ep : ℕ → Page) (limit : ℕ) :
    (fetchApiPages ep limit).length ≤ 200 ∧
    (∀ q ∈ fetchApiPages ep limit, q.1 ≤ 200000) ∧
    (fetchApiPages (fullPageEndpoint 5000) 5000).length = 41 := by
  refine ⟨?_, ?_, ?_⟩
  · simpa [fetchApiPages] using fetchPagesLoop_length ep limit 200 0 0 []
  · intro q hq
    exact fetchPagesLoop_offsets ep limit 200 0 0 [] (by omega) (by simp) q hq
  · decide

/-- C7 witness: a concrete fetched offset obeys the ceiling. -/
theorem c7_pagination_bounded_witness :
    ((0 : ℕ), fullPageEndpoint 5000 0).1 ≤ 200000 :=
  (c7_pagination_bounded (fullPageEndpoint 5000) 5000).2.1
    (0, fullPageEndpoint 5000 0) (by decide)

/-! ## C8 -/

/-- C8: the claimed example scenario.  The consistency score function
itself, given the declared non-negative column, yields exactly 0.75,
but the pipeline scoring step (evaluate, which never passes the declared
column list) reports 0.98 for the same table under status manual_ingest,
violating the claimed bound of 0.75. -/
theorem c8_consistency_divergence :
    consistency_score df10 ["amount"] = 3/4 ∧
    (evaluate df10 itemManual).consistency_score = 49/50 ∧
    ¬ ((evaluate df10 itemManual).consistency_score ≤ 3/4) := by
  have hany : (df10.getCol 2).any cellNegative = true := by decide
  have hfind : df10.columns.findIdx? (fun c => c = "amount") = some 2 := by decide
  have hemp : df10.isEmpty = false := by decide
  have h1 : consistency_score df10 ["amount"] = 3/4 := by
    simp only [consistency_score, hemp, List.foldl, hfind, hany, Bool.false_eq_true, if_false]
    norm_num [pyRound3, roundHalfEven]
  have h0 : consistency_score df10 [] = 1 := by
    simp only [consistency_score, hemp, List.foldl, Bool.false_eq_true, if_false]
    norm_num [pyRound3, roundHalfEven]
  have h2 : (evaluate df10 itemManual).consistency_score = 49/50 := by
    rw [evaluate_consistency, h0]
    have hm : statusFactor itemManual.status = 49/50 := statusFactor_manual
    rw [hm]
    norm_num [max_def, min_def]
  refine ⟨h1, h2, ?_⟩
  rw [h2]
  norm_num

/-! ## C9 -/

/-- C9: the claim states that each value whose numeric coercion fails
is retained unchanged.  False: the text value abc in the year column is
coerced to a missing value by `to_numeric(errors="coerce")`, and the
whole-column cast to Int64 succeeds, so the returned table holds NA
where abc was. -/
theorem c9_year_retention_counterexample :
    (parse_year dfYear).rows = [[Cell.num 2001], [Cell.null]] ∧
    (dfYear.rows.getD 1 []).getD 0 Cell.null = Cell.text "abc" none ∧
    Cell.null ≠ Cell.text "abc" none := by
  refine ⟨by decide, by decide, by decide⟩

/-- C9 (amended): the year-coercion step never raises (it is a total
function of the table); exactly when the coerced year column casts to
nullable integers, every value is replaced by its numeric coercion, so
each value whose coercion fails becomes a missing value rather than
being retained; exactly when that cast raises, the exception is
swallowed and the entire original column is retained unchanged. -/
theorem c9_amended_year_coercion (df : DataFrame) (i : ℕ)
    (h : df.columns.findIdx? (fun c => c = "year") = some i) :
    (parse_year df).columns = df.columns ∧
    (((df.getCol i).map toNumericCell).all int64Castable = true →
      (parse_year df).rows =
        (df.setCol i ((df.getCol i).map toNumericCell)).rows) ∧
    (((df.getCol i).map toNumericCell).all int64Castable = false →
      (parse_year df).rows = (df.setCol i (df.getCol i)).rows) := by
  unfold parse_year
  rw [h]
  refine ⟨rfl, ?_, ?_⟩
  · intro hc
    simp only [parseYearColumn, hc, if_true]
  · intro hc
    simp only [parseYearColumn, hc, Bool.false_eq_true, if_false]

/-- C9 witness: on the concrete table the coerced year column is
castable, so the rows are replaced by their coercion and the failing
value abc has become missing. -/
theorem c9_amended_year_coercion_witness :
    (parse_year dfYear).rows =
      (dfYear.setCol 0 ((dfYear.getCol 0).map toNumericCell)).rows :=
  (c9_amended_year_coercion dfYear 0 (by decide)).2.1 (by decide)

/-! ## C10 -/

/-- C10: whenever confidence_badge returns the badge Low, the reasons
list is non-empty and ends with the fixed advisory string. -/
theorem c10_low_badge_reasons (s : Scores)
    (h : (confidence_badge s).1 = "Low") :
    (confidence_badge s).2 ≠ [] ∧
    (confidence_badge s).2.getLast? =
      some "Use for trend and risk ranking, not precise governance decisions" := by
  simp only [confidence_badge] at h ⊢
  by_cases h1 : overallScore s ≥ 17/20
  · rw [if_pos h1] at h
    simp at h
  · rw [if_neg h1] at h ⊢
    by_cases h2 : overallScore s ≥ 13/20
    · rw [if_pos h2] at h
      simp at h
    · rw [if_neg h2]
      constructor
      · simp
      · show (_ ++ ["Use for trend and risk ranking, not precise governance decisions"]).getLast? = _
        exact List.getLast?_concat _

/-- C10 witness at the all-zero score mapping. -/
theorem c10_low_badge_reasons_witness :
    (confidence_badge ⟨0, 0, 0, 0⟩).2 ≠ [] ∧
    (confidence_badge ⟨0, 0, 0, 0⟩).2.getLast? =
      some "Use for trend and risk ranking, not precise governance decisions" :=
  c10_low_badge_reasons ⟨0, 0, 0, 0⟩ (by
    simp only [confidence_badge, overallScore]
    norm_num)

end BHAI
